import Mathlib

/-!
Shallow embedding of the real-estate listing service (schema, persistence
adapter, route handlers) and proofs about its specified behaviour.

Sources embedded:
* `shared/schema.ts` — table shapes (`properties`, `users`, `enquiries`,
  `saved_properties`) and the zod filter/insert schemas.
* `server/storage.ts` — `DatabaseStorage` methods (`getProperties`,
  `createProperty`, `createUser`, `updateUser`, `getEnquiries`,
  `getSavedProperties`, `saveProperty`, `unsaveProperty`, ...).
* `server/routes.ts` — the express route handlers (`GET /api/properties`,
  `POST /api/users/register`, `POST /api/auth/login`, `PATCH /api/users/:id`,
  `DELETE /api/saved-properties/:propertyId`) and the passport local strategy.

Modelling conventions: the database is a Lean list of rows; SQL `integer`
columns are `Int`, `serial` ids are `Nat`, nullable columns are `Option`;
timestamps are `Nat` ticks. SQL comparisons on a NULL column are three-valued
and never satisfy a WHERE condition, so they evaluate to `false` here.
`bcrypt.hash`/`bcrypt.compare` are modelled by an injective tagging function
(the salt is not modelled; compare succeeds exactly on the hashed preimage).
-/

namespace HomeQuest

/-- Row of the `properties` table (`shared/schema.ts`, `pgTable "properties"`).
Nullable columns are `Option`; `price`/`bedrooms`/`bathrooms`/`area` are SQL
integers. -/
structure Property where
  id : Nat
  title : String
  description : String
  address : String
  city : String
  location : String
  type : String
  category : String
  price : Int
  priceUnit : String
  displayPrice : Option String
  bedrooms : Option Int
  bathrooms : Option Int
  area : Option Int
  amenities : Option (List String)
  features : Option (List String)
  images : List String
  latitude : Option String
  longitude : Option String
  builderId : Option Int
  status : String
  featured : Option Bool
  isNewLaunch : Option Bool
  isExclusive : Option Bool
  isReadyToMove : Option Bool
  agentId : Option Int
deriving DecidableEq

/-- `PropertyFilter` (`propertyFilterSchema` in `shared/schema.ts`): every
field optional. -/
structure PropertyFilter where
  category : Option String := none
  type : Option String := none
  city : Option String := none
  location : Option String := none
  minPrice : Option Int := none
  maxPrice : Option Int := none
  bedrooms : Option Int := none
  bathrooms : Option Int := none
  minArea : Option Int := none
  maxArea : Option Int := none
  status : Option String := none
  featured : Option Bool := none
deriving DecidableEq

/-- SQL `column >= v` on a nullable integer column: NULL never satisfies. -/
def sqlGte (col : Option Int) (v : Int) : Bool :=
  match col with
  | some c => decide (v ≤ c)
  | none => false

/-- SQL `column <= v` on a nullable integer column: NULL never satisfies. -/
def sqlLte (col : Option Int) (v : Int) : Bool :=
  match col with
  | some c => decide (c ≤ v)
  | none => false

/-- SQL `column = v` on a nullable boolean column: NULL never satisfies. -/
def sqlEqBool (col : Option Bool) (v : Bool) : Bool :=
  match col with
  | some c => c == v
  | none => false

/-- One `if (filter.field) queryConditions.push(eq(column, filter.field))`
step of `getProperties` for a string field.  JS truthiness: the condition is
pushed only when the field is present AND non-empty. -/
def strEqCond (fv : Option String) (sel : Property → String) :
    List (Property → Bool) :=
  match fv with
  | some s => if s == "" then [] else [fun p => sel p == s]
  | none => []

/-- One `if (filter.field !== undefined) queryConditions.push(gte(column, v))`
step of `getProperties` for a numeric lower bound. -/
def gteCond (fv : Option Int) (sel : Property → Option Int) :
    List (Property → Bool) :=
  match fv with
  | some v => [fun p => sqlGte (sel p) v]
  | none => []

/-- One `if (filter.field !== undefined) queryConditions.push(lte(column, v))`
step of `getProperties` for a numeric upper bound. -/
def lteCond (fv : Option Int) (sel : Property → Option Int) :
    List (Property → Bool) :=
  match fv with
  | some v => [fun p => sqlLte (sel p) v]
  | none => []

/-- One `if (filter.featured !== undefined) push(eq(column, v))` step of
`getProperties` for the boolean field. -/
def boolEqCond (fv : Option Bool) (sel : Property → Option Bool) :
    List (Property → Bool) :=
  match fv with
  | some v => [fun p => sqlEqBool (sel p) v]
  | none => []

/-- The `queryConditions` array built by `DatabaseStorage.getProperties`
(`server/storage.ts` lines 101-151), in source order.  String fields go
through a JS truthiness test (`if (filter.category)`), numeric and boolean
fields through `!== undefined`. -/
def queryConditions (f : PropertyFilter) : List (Property → Bool) :=
  strEqCond f.category (fun p => p.category) ++
  strEqCond f.type (fun p => p.type) ++
  strEqCond f.city (fun p => p.city) ++
  strEqCond f.location (fun p => p.location) ++
  gteCond f.minPrice (fun p => some p.price) ++
  lteCond f.maxPrice (fun p => some p.price) ++
  gteCond f.bedrooms (fun p => p.bedrooms) ++
  gteCond f.bathrooms (fun p => p.bathrooms) ++
  gteCond f.minArea (fun p => p.area) ++
  lteCond f.maxArea (fun p => p.area) ++
  strEqCond f.status (fun p => p.status) ++
  boolEqCond f.featured (fun p => p.featured)

/-- `DatabaseStorage.getProperties` (`server/storage.ts` lines 100-158): build
the condition array, then `where(and(...))` when non-empty, else the
unrestricted select. -/
def getProperties (db : List Property) (filter : Option PropertyFilter) :
    List Property :=
  let conds : List (Property → Bool) :=
    match filter with
    | some f => queryConditions f
    | none => []
  if conds.length > 0 then
    db.filter (fun p => conds.all (fun c => c p))
  else
    db

/-- Spec-side per-field condition for a string filter field: when present it
contributes an equality, otherwise it is vacuous (spec §4.1). -/
def condStr (fv : Option String) (col : String) : Bool :=
  match fv with
  | some s => col == s
  | none => true

/-- Spec-side per-field condition for an inclusive lower bound (spec §4.1). -/
def condGe (fv : Option Int) (col : Option Int) : Bool :=
  match fv with
  | some v => sqlGte col v
  | none => true

/-- Spec-side per-field condition for an inclusive upper bound (spec §4.1). -/
def condLe (fv : Option Int) (col : Option Int) : Bool :=
  match fv with
  | some v => sqlLte col v
  | none => true

/-- Spec-side per-field condition for the boolean `featured` field. -/
def condBool (fv : Option Bool) (col : Option Bool) : Bool :=
  match fv with
  | some v => sqlEqBool col v
  | none => true

/-- Spec-side filter semantics (spec §4.1/§8): the conjunction of the present
per-field conditions — equality for category/type/city/location/status and
featured, `≥` for minPrice/bedrooms/bathrooms/minArea, `≤` for
maxPrice/maxArea. -/
def specMatches (f : PropertyFilter) (p : Property) : Bool :=
  condStr f.category p.category &&
  condStr f.type p.type &&
  condStr f.city p.city &&
  condStr f.location p.location &&
  condGe f.minPrice (some p.price) &&
  condLe f.maxPrice (some p.price) &&
  condGe f.bedrooms p.bedrooms &&
  condGe f.bathrooms p.bathrooms &&
  condGe f.minArea p.area &&
  condLe f.maxArea p.area &&
  condStr f.status p.status &&
  condBool f.featured p.featured

/-- The string-valued filter fields are not present-as-empty (the JS truthiness
test in `getProperties` ignores an empty string, so only such filters follow
the spec's conjunction semantics). -/
def PropertyFilter.stringsNonempty (f : PropertyFilter) : Prop :=
  f.category ≠ some "" ∧ f.type ≠ some "" ∧ f.city ≠ some "" ∧
  f.location ≠ some "" ∧ f.status ≠ some ""

instance (f : PropertyFilter) : Decidable f.stringsNonempty := by
  unfold PropertyFilter.stringsNonempty
  infer_instance

lemma strEqCond_all (fv : Option String) (sel : Property → String)
    (h : fv ≠ some "") (p : Property) :
    (strEqCond fv sel).all (fun c => c p) = condStr fv (sel p) := by
  cases fv with
  | none => rfl
  | some s =>
    have hs : ¬ (s = "") := fun hse => h (by rw [hse])
    simp [strEqCond, condStr, hs]

lemma gteCond_all (fv : Option Int) (sel : Property → Option Int)
    (p : Property) :
    (gteCond fv sel).all (fun c => c p) = condGe fv (sel p) := by
  cases fv <;> simp [gteCond, condGe]

lemma lteCond_all (fv : Option Int) (sel : Property → Option Int)
    (p : Property) :
    (lteCond fv sel).all (fun c => c p) = condLe fv (sel p) := by
  cases fv <;> simp [lteCond, condLe]

lemma boolEqCond_all (fv : Option Bool) (sel : Property → Option Bool)
    (p : Property) :
    (boolEqCond fv sel).all (fun c => c p) = condBool fv (sel p) := by
  cases fv <;> simp [boolEqCond, condBool]

lemma queryConditions_all (f : PropertyFilter)
    (h : f.stringsNonempty) (p : Property) :
    (queryConditions f).all (fun c => c p) = specMatches f p := by
  obtain ⟨h1, h2, h3, h4, h5⟩ := h
  simp only [queryConditions, List.all_append, specMatches,
    strEqCond_all _ _ h1, strEqCond_all _ _ h2, strEqCond_all _ _ h3,
    strEqCond_all _ _ h4, strEqCond_all _ _ h5,
    gteCond_all, lteCond_all, boolEqCond_all]

/-- Example property (matches the first seeded listing, abbreviated). -/
def exProp : Property :=
  { id := 1, title := "Skyline Residency", description := "d",
    address := "Bandra West", city := "Mumbai", location := "Bandra West",
    type := "apartment", category := "buy", price := 12500000,
    priceUnit := "Rs", displayPrice := none, bedrooms := some 3,
    bathrooms := some 2, area := some 1250, amenities := none,
    features := none, images := ["img1"], latitude := none,
    longitude := none, builderId := none, status := "available",
    featured := some true, isNewLaunch := some false,
    isExclusive := some false, isReadyToMove := some false,
    agentId := some 1 }

/-- A filter whose `category` is present but empty: `getProperties` ignores it
(JS truthiness), the spec's conjunction semantics would not. -/
def emptyCatFilter : PropertyFilter := { category := some "" }

/-- C1 counterexample: with `category = some ""` the code drops the condition
and returns the `"buy"` property, but no property satisfies the spec-side
equality `category = ""`. The claim's "for every filter" fails here. -/
theorem getProperties_empty_string_cex :
    getProperties [exProp] (some emptyCatFilter) ≠
      [exProp].filter (fun p => specMatches emptyCatFilter p) := by
  decide

/-- C1 (amended): for every filter whose present string fields are non-empty,
`getProperties` returns exactly the properties satisfying the conjunction of
the present per-field conditions, and with no filter at all it returns the
unrestricted collection. -/
theorem getProperties_filter_spec (db : List Property) (f : PropertyFilter)
    (h : f.stringsNonempty) :
    getProperties db (some f) = db.filter (fun p => specMatches f p) ∧
    getProperties db none = db := by
  constructor
  · show (if (queryConditions f).length > 0 then
        db.filter (fun p => (queryConditions f).all (fun c => c p))
      else db) = db.filter (fun p => specMatches f p)
    by_cases hc : (queryConditions f).length > 0
    · rw [if_pos hc]
      exact List.filter_congr (fun p _ => queryConditions_all f h p)
    · rw [if_neg hc]
      have hnil : queryConditions f = [] :=
        List.length_eq_zero.mp (Nat.eq_zero_of_not_pos hc)
      refine (List.filter_eq_self.mpr (fun p _ => ?_)).symm
      rw [← queryConditions_all f h p, hnil]
      rfl
  · rfl

/-- Example database and a well-formed filter for the C1 witness. -/
def exDb : List Property :=
  [exProp, { exProp with id := 2, category := "rent", price := 35000 }]

/-- Example filter with non-empty string fields. -/
def exFilter : PropertyFilter := { category := some "buy", minPrice := some 1000000 }

/-- Witness for C1 at a concrete database and filter. -/
theorem getProperties_filter_spec_witness :
    PropertyFilter.stringsNonempty exFilter ∧
    (getProperties exDb (some exFilter) =
        exDb.filter (fun p => specMatches exFilter p) ∧
      getProperties exDb none = exDb) :=
  ⟨by decide, getProperties_filter_spec exDb exFilter (by decide)⟩

/-! ## GET /api/properties route handler (`server/routes.ts` lines 38-71) -/

/-- Raw query string of a `GET /api/properties` request: each parameter is an
optional string. -/
structure PropertiesQuery where
  category : Option String := none
  type : Option String := none
  city : Option String := none
  location : Option String := none
  minPrice : Option String := none
  maxPrice : Option String := none
  bedrooms : Option String := none
  bathrooms : Option String := none
  minArea : Option String := none
  maxArea : Option String := none
  status : Option String := none
  featured : Option String := none
deriving DecidableEq

/-- Accumulate the leading decimal digits, stopping at the first non-digit
(JS `parseInt` parses the longest numeric prefix). -/
def parseIntDigits (acc : Nat) : List Char → Nat
  | [] => acc
  | c :: cs =>
    if c.isDigit then parseIntDigits (acc * 10 + (c.toNat - 48)) cs else acc

/-- Parse a digit-led character list; `none` when the first character is not
a digit (JS `parseInt` yields `NaN` there). -/
def parseIntLeading : List Char → Option Nat
  | [] => none
  | c :: cs =>
    if c.isDigit then some (parseIntDigits (c.toNat - 48) cs) else none

/-- JS `parseInt` on a request parameter: an optional minus sign followed by
digits, longest numeric prefix; `none` models `NaN`.  (Leading whitespace and
an explicit plus sign are not modelled.) -/
def parseIntJS (s : String) : Option Int :=
  match s.data with
  | '-' :: rest => (parseIntLeading rest).map fun n => -(n : Int)
  | rest => (parseIntLeading rest).map fun n => (n : Int)

/-- `if (req.query.field) filter.field = req.query.field` for a string
parameter (absent or empty string ⇒ field not set). -/
def strQueryField (o : Option String) : Option String :=
  match o with
  | some s => if s == "" then none else some s
  | none => none

/-- `if (req.query.field) filter.field = parseInt(req.query.field)` for a
numeric parameter, followed by the zod `z.number()` validation, which rejects
a `NaN` value (error ⇒ the handler answers 400). -/
def numQueryField (o : Option String) : Except String (Option Int) :=
  match o with
  | some s =>
    if s == "" then .ok none
    else
      match parseIntJS s with
      | some n => .ok (some n)
      | none => .error "Invalid filter parameters"
  | none => .ok none

/-- `if (req.query.featured) filter.featured = req.query.featured === 'true'`. -/
def boolQueryField (o : Option String) : Option Bool :=
  match o with
  | some s => if s == "" then none else some (s == "true")
  | none => none

/-- The filter object built by the `GET /api/properties` handler from the
query string (`server/routes.ts` lines 41-53) and validated against
`propertyFilterSchema`.  The handler reads `category`, `type`, `city`,
`location`, `minPrice`, `maxPrice`, `bedrooms`, `minArea`, `maxArea`,
`status` and `featured` — it never reads `req.query.bathrooms`, so the built
filter always has `bathrooms := none`. -/
def buildPropertiesFilter (q : PropertiesQuery) :
    Except String PropertyFilter := do
  let minPrice ← numQueryField q.minPrice
  let maxPrice ← numQueryField q.maxPrice
  let bedrooms ← numQueryField q.bedrooms
  let minArea ← numQueryField q.minArea
  let maxArea ← numQueryField q.maxArea
  .ok { category := strQueryField q.category,
        type := strQueryField q.type,
        city := strQueryField q.city,
        location := strQueryField q.location,
        minPrice := minPrice, maxPrice := maxPrice,
        bedrooms := bedrooms,
        bathrooms := none,
        minArea := minArea, maxArea := maxArea,
        status := strQueryField q.status,
        featured := boolQueryField q.featured }

/-- Response of `GET /api/properties`. -/
inductive PropertiesResponse where
  | ok (body : List Property)
  | badRequest (message : String)
deriving DecidableEq

/-- The `GET /api/properties` handler: build and validate the filter, answer
400 on a validation failure, else answer the filtered select. -/
def getPropertiesRoute (db : List Property) (q : PropertiesQuery) :
    PropertiesResponse :=
  match buildPropertiesFilter q with
  | .error m => .badRequest m
  | .ok f => .ok (getProperties db (some f))

/-- A request carrying only `bathrooms=3`. -/
def bathroomsQuery : PropertiesQuery := { bathrooms := some "3" }

/-- A property with fewer bathrooms than the query asks for. -/
def lowBathProp : Property := { exProp with id := 3, bathrooms := some 1 }

/-- C2: `GET /api/properties?bathrooms=3` returns a property with only 1
bathroom, because the handler never copies `req.query.bathrooms` into the
filter — contradicting the spec, which lists bathrooms-min among the honored
query filters (and contradicting `getProperties`, which does support the
condition). -/
theorem bathrooms_filter_ignored :
    getPropertiesRoute [lowBathProp] bathroomsQuery = .ok [lowBathProp] ∧
    sqlGte lowBathProp.bathrooms 3 = false ∧
    getProperties [lowBathProp] (some { bathrooms := some 3 }) = [] := by
  decide

/-! ## Saved properties (`shared/schema.ts` `saved_properties`,
`server/storage.ts` lines 251-298) -/

/-- Row of the `saved_properties` table. -/
structure SavedProperty where
  id : Nat
  userId : Int
  propertyId : Int
  createdAt : Nat
deriving DecidableEq

/-- `InsertSavedProperty` (`insertSavedPropertySchema`): the (userId,
propertyId) pair. -/
structure InsertSavedProperty where
  userId : Int
  propertyId : Int
deriving DecidableEq

/-- State of the `saved_properties` table: rows, next serial id, and the
clock used for `defaultNow()`. -/
structure SavedState where
  rows : List SavedProperty
  nextId : Nat
  now : Nat
deriving DecidableEq

/-- The WHERE clause `and(eq(userId), eq(propertyId))` shared by
`saveProperty`, `unsaveProperty` and `isPropertySaved`. -/
def savedMatches (userId propertyId : Int) (r : SavedProperty) : Bool :=
  r.userId == userId && r.propertyId == propertyId

/-- `DatabaseStorage.saveProperty` (`server/storage.ts` lines 251-273): select
the existing rows for the pair; if any, return the first unchanged; else
insert a fresh row. -/
def newSavedRow (s : SavedState) (sp : InsertSavedProperty) : SavedProperty :=
  { id := s.nextId, userId := sp.userId, propertyId := sp.propertyId,
    createdAt := s.now }

/-- `DatabaseStorage.saveProperty` continued: the select/insert bodies. -/
def saveProperty (s : SavedState) (sp : InsertSavedProperty) :
    SavedProperty × SavedState :=
  match s.rows.filter (savedMatches sp.userId sp.propertyId) with
  | existing0 :: _ => (existing0, s)
  | [] =>
    (newSavedRow s sp,
     { s with rows := s.rows ++ [newSavedRow s sp], nextId := s.nextId + 1 })

/-- C3: sequential idempotence of `saveProperty`.  Starting from a state with
at most one stored row for the pair, calling `saveProperty` twice with the
same pair leaves exactly one row for it, and the second call performs no
insert: it returns the first call's row and state unchanged. -/
theorem saveProperty_idempotent (s : SavedState) (sp : InsertSavedProperty)
    (h : (s.rows.filter (savedMatches sp.userId sp.propertyId)).length ≤ 1) :
    (saveProperty (saveProperty s sp).2 sp).2 = (saveProperty s sp).2 ∧
    (saveProperty (saveProperty s sp).2 sp).1 = (saveProperty s sp).1 ∧
    ((saveProperty s sp).2.rows.filter
        (savedMatches sp.userId sp.propertyId)).length = 1 := by
  cases hm : s.rows.filter (savedMatches sp.userId sp.propertyId) with
  | nil =>
    have hrow : savedMatches sp.userId sp.propertyId (newSavedRow s sp) = true := by
      simp [savedMatches, newSavedRow]
    have e1 : saveProperty s sp =
        (newSavedRow s sp,
         { s with rows := s.rows ++ [newSavedRow s sp],
                  nextId := s.nextId + 1 }) := by
      simp [saveProperty, hm]
    have e2 : (s.rows ++ [newSavedRow s sp]).filter
        (savedMatches sp.userId sp.propertyId) = [newSavedRow s sp] := by
      rw [List.filter_append, hm, List.filter_cons, if_pos hrow]
      rfl
    have e3 : saveProperty
        { s with rows := s.rows ++ [newSavedRow s sp],
                 nextId := s.nextId + 1 } sp =
        (newSavedRow s sp,
         { s with rows := s.rows ++ [newSavedRow s sp],
                  nextId := s.nextId + 1 }) := by
      simp [saveProperty, e2]
    refine ⟨?_, ?_, ?_⟩
    · rw [e1, e3]
    · rw [e1, e3]
    · rw [e1]
      show ((s.rows ++ [newSavedRow s sp]).filter
        (savedMatches sp.userId sp.propertyId)).length = 1
      rw [e2]
      rfl
  | cons r rest =>
    have hrest : rest = [] := by
      rw [hm] at h
      cases rest with
      | nil => rfl
      | cons r2 rest2 => simp at h
    subst hrest
    have e1 : saveProperty s sp = (r, s) := by
      simp [saveProperty, hm]
    refine ⟨?_, ?_, ?_⟩
    · rw [e1]
      show (saveProperty s sp).2 = s
      rw [e1]
    · rw [e1]
      show (saveProperty s sp).1 = r
      rw [e1]
    · rw [e1]
      show (s.rows.filter (savedMatches sp.userId sp.propertyId)).length = 1
      rw [hm]
      rfl

/-- Example saved-properties state and insert for the C3 witness. -/
def exSavedState : SavedState := { rows := [], nextId := 1, now := 100 }

/-- Example (userId, propertyId) pair. -/
def exInsertSaved : InsertSavedProperty := { userId := 7, propertyId := 9 }

/-- Witness for C3 at a concrete state and pair. -/
theorem saveProperty_idempotent_witness :
    (saveProperty (saveProperty exSavedState exInsertSaved).2
        exInsertSaved).2 = (saveProperty exSavedState exInsertSaved).2 ∧
    (saveProperty (saveProperty exSavedState exInsertSaved).2
        exInsertSaved).1 = (saveProperty exSavedState exInsertSaved).1 ∧
    ((saveProperty exSavedState exInsertSaved).2.rows.filter
        (savedMatches exInsertSaved.userId
          exInsertSaved.propertyId)).length = 1 :=
  saveProperty_idempotent exSavedState exInsertSaved (by decide)

/-! ## Users, registration and login (`shared/schema.ts` `users`,
`server/storage.ts` user methods, `server/routes.ts` + passport strategy) -/

/-- Row of the `users` table. -/
structure User where
  id : Nat
  username : String
  password : String
  email : Option String
  name : Option String
  phone : Option String
  role : String
  profileImage : Option String
  createdAt : Nat
deriving DecidableEq

/-- `InsertUser` (`insertUserSchema`): username, password required; email,
name, phone optional. -/
structure InsertUser where
  username : String
  password : String
  email : Option String := none
  name : Option String := none
  phone : Option String := none
deriving DecidableEq

/-- State of the `users` table. -/
structure UserState where
  users : List User
  nextId : Nat
  now : Nat
deriving DecidableEq

/-- Model of `bcrypt.hash(password, 10)`: a salted one-way hash, modelled as
an injective tagging of the password (the salt itself is not modelled). -/
def bcryptHash (password : String) : String :=
  "$2a$10$" ++ password

/-- Model of `bcrypt.compare(password, hash)`: constant-time verification,
succeeding exactly when the hash is the stored hash of the password. -/
def bcryptCompare (password hash : String) : Bool :=
  bcryptHash password == hash

/-- `DatabaseStorage.getUser`: select by id, first row or absent. -/
def getUser (s : UserState) (id : Nat) : Option User :=
  s.users.find? (fun u => u.id == id)

/-- `DatabaseStorage.getUserByUsername`: select by username. -/
def getUserByUsername (s : UserState) (username : String) : Option User :=
  s.users.find? (fun u => u.username == username)

/-- `DatabaseStorage.createUser` (`server/storage.ts` lines 57-70): hash the
password, insert the row (role defaults to `"user"`, `createdAt` to now). -/
def createUser (s : UserState) (insertUser : InsertUser) : User × UserState :=
  let user : User :=
    { id := s.nextId, username := insertUser.username,
      password := bcryptHash insertUser.password,
      email := insertUser.email, name := insertUser.name,
      phone := insertUser.phone, role := "user", profileImage := none,
      createdAt := s.now }
  (user, { s with users := s.users ++ [user], nextId := s.nextId + 1 })

/-- A user record serialized with the password stripped
(`const \x7b password, ...userWithoutPassword \x7d = user`): the type has no
password field at all. -/
structure PublicUser where
  id : Nat
  username : String
  email : Option String
  name : Option String
  phone : Option String
  role : String
  profileImage : Option String
  createdAt : Nat
deriving DecidableEq

/-- Strip the password field from a user record. -/
def stripPassword (u : User) : PublicUser :=
  { id := u.id, username := u.username, email := u.email, name := u.name,
    phone := u.phone, role := u.role, profileImage := u.profileImage,
    createdAt := u.createdAt }

/-- Response of `POST /api/users/register` (after body validation). -/
inductive RegisterResponse where
  | conflict (message : String)
  | created (user : PublicUser)
deriving DecidableEq

/-- The `POST /api/users/register` handler (`server/routes.ts` lines
165-192), on a validated body: 409 if the username is taken (no insert), else
create the user and answer 201 with the user sans password. -/
def registerUser (s : UserState) (body : InsertUser) :
    RegisterResponse × UserState :=
  match getUserByUsername s body.username with
  | some _ => (.conflict "Username already exists", s)
  | none =>
    let r := createUser s body
    (.created (stripPassword r.1), r.2)

/-- C4: a registration whose username already names an existing user answers
409 and leaves the users table unchanged; otherwise it answers 201 with the
created user stripped of its password field (`PublicUser` has none). -/
theorem registerUser_conflict_or_created (s : UserState) (b : InsertUser) :
    ((∃ u ∈ s.users, u.username = b.username) →
      registerUser s b = (.conflict "Username already exists", s)) ∧
    ((∀ u ∈ s.users, u.username ≠ b.username) →
      registerUser s b =
        (.created (stripPassword (createUser s b).1), (createUser s b).2)) := by
  constructor
  · rintro ⟨u, hu, hname⟩
    have hsome : (getUserByUsername s b.username).isSome := by
      unfold getUserByUsername
      exact List.find?_isSome.mpr ⟨u, hu, by simp [hname]⟩
    obtain ⟨v, hv⟩ := Option.isSome_iff_exists.mp hsome
    simp [registerUser, hv]
  · intro h
    have hnone : getUserByUsername s b.username = none := by
      unfold getUserByUsername
      exact List.find?_eq_none.mpr (fun u hu => by simp [h u hu])
    simp [registerUser, hnone]

/-- A users table seeded with one user (via `createUser`). -/
def exUsers : UserState :=
  (createUser { users := [], nextId := 1, now := 50 }
    { username := "admin", password := "admin123",
      email := some "admin@realestate.com", name := some "Administrator" }).2

/-- A registration body whose username is already taken. -/
def exTakenBody : InsertUser := { username := "admin", password := "x" }

/-- A registration body with a fresh username. -/
def exFreshBody : InsertUser := { username := "alice", password := "secret1" }

/-- Witness for C4: conflict on the taken username, creation on the fresh
one, at concrete states. -/
theorem registerUser_witness :
    registerUser exUsers exTakenBody =
      (.conflict "Username already exists", exUsers) ∧
    registerUser exUsers exFreshBody =
      (.created (stripPassword (createUser exUsers exFreshBody).1),
       (createUser exUsers exFreshBody).2) :=
  ⟨(registerUser_conflict_or_created exUsers exTakenBody).1 (by decide),
   (registerUser_conflict_or_created exUsers exFreshBody).2 (by decide)⟩

/-- Outcome of the passport LocalStrategy verify callback: `done(null, false,
\x7b message \x7d)` or `done(null, user)`. -/
inductive AuthResult where
  | failure (message : String)
  | success (user : User)
deriving DecidableEq

/-- The passport LocalStrategy verify callback (`server/index.ts` lines
39-57): look up by username, fail `"Incorrect username."` when absent,
compare with bcrypt, fail `"Incorrect password."` on mismatch, else succeed
with the full user record. -/
def localStrategyVerify (s : UserState) (username password : String) :
    AuthResult :=
  match getUserByUsername s username with
  | none => .failure "Incorrect username."
  | some user =>
    if bcryptCompare password user.password then .success user
    else .failure "Incorrect password."

/-- Response of `POST /api/auth/login` (after body validation). -/
inductive LoginResponse where
  | unauthorized (message : String)
  | ok (message : String) (user : PublicUser)
deriving DecidableEq

/-- The `POST /api/auth/login` handler (`server/routes.ts` lines 195-233):
401 with the strategy's message on failure, else 200 with the user sans
password. -/
def loginRoute (s : UserState) (username password : String) :
    LoginResponse :=
  match localStrategyVerify s username password with
  | .failure m => .unauthorized m
  | .success user => .ok "Login successful" (stripPassword user)

/-- C5: an unknown username fails with the incorrect-username message, a
known username with a non-matching password fails unauthorized with the
incorrect-password message, and matching credentials answer 200 with the user
payload stripped of its password field. -/
theorem loginRoute_credentials (s : UserState) (username password : String) :
    ((∀ u ∈ s.users, u.username ≠ username) →
      loginRoute s username password = .unauthorized "Incorrect username.") ∧
    (∀ u, getUserByUsername s username = some u →
      bcryptCompare password u.password = false →
      loginRoute s username password = .unauthorized "Incorrect password.") ∧
    (∀ u, getUserByUsername s username = some u →
      bcryptCompare password u.password = true →
      loginRoute s username password =
        .ok "Login successful" (stripPassword u)) := by
  refine ⟨?_, ?_, ?_⟩
  · intro h
    have hnone : getUserByUsername s username = none := by
      unfold getUserByUsername
      exact List.find?_eq_none.mpr (fun u hu => by simp [h u hu])
    simp [loginRoute, localStrategyVerify, hnone]
  · intro u hu hcmp
    simp [loginRoute, localStrategyVerify, hu, hcmp]
  · intro u hu hcmp
    simp [loginRoute, localStrategyVerify, hu, hcmp]

/-- The row stored for alice by `createUser` (password = hash of
`"secret1"`). -/
def aliceUser : User :=
  (createUser exUsers exFreshBody).1

/-- Users table containing alice. -/
def exAuthState : UserState :=
  (createUser exUsers exFreshBody).2

/-- Witness for C5: unknown username, wrong password, and correct credentials
at a concrete users table. -/
theorem loginRoute_credentials_witness :
    loginRoute exAuthState "bob" "pw" = .unauthorized "Incorrect username." ∧
    loginRoute exAuthState "alice" "wrong" =
      .unauthorized "Incorrect password." ∧
    loginRoute exAuthState "alice" "secret1" =
      .ok "Login successful" (stripPassword aliceUser) :=
  ⟨(loginRoute_credentials exAuthState "bob" "pw").1 (by decide),
   (loginRoute_credentials exAuthState "alice" "wrong").2.1 aliceUser
     (by decide) (by decide),
   (loginRoute_credentials exAuthState "alice" "secret1").2.2 aliceUser
     (by decide) (by decide)⟩

/-! ## createProperty and the images/price invariant (`shared/schema.ts`
`properties`, `server/storage.ts` lines 176-183) -/

/-- `InsertProperty` (`insertPropertySchema`, the table shape minus `id`):
columns with a database default become optional, `none` meaning the column is
omitted and the default applies. Providing an explicit SQL NULL for a
defaulted nullable column is not modelled. -/
structure InsertProperty where
  title : String
  description : String
  address : String
  city : String
  location : String
  type : String
  category : String
  price : Int
  priceUnit : Option String := none
  displayPrice : Option String := none
  bedrooms : Option Int := none
  bathrooms : Option Int := none
  area : Option Int := none
  amenities : Option (List String) := none
  features : Option (List String) := none
  images : List String
  latitude : Option String := none
  longitude : Option String := none
  builderId : Option Int := none
  status : Option String := none
  featured : Option Bool := none
  isNewLaunch : Option Bool := none
  isExclusive : Option Bool := none
  isReadyToMove : Option Bool := none
  agentId : Option Int := none
deriving DecidableEq

/-- State of the `properties` table. -/
structure PropState where
  props : List Property
  nextId : Nat
deriving DecidableEq

/-- `DatabaseStorage.createProperty` (`server/storage.ts` lines 176-183):
insert the row as given (no validation of images or price), applying the
column defaults, and return it. -/
def createProperty (s : PropState) (ip : InsertProperty) :
    Property × PropState :=
  let p : Property :=
    { id := s.nextId, title := ip.title, description := ip.description,
      address := ip.address, city := ip.city, location := ip.location,
      type := ip.type, category := ip.category, price := ip.price,
      priceUnit := ip.priceUnit.getD "Rs", displayPrice := ip.displayPrice,
      bedrooms := ip.bedrooms, bathrooms := ip.bathrooms, area := ip.area,
      amenities := ip.amenities, features := ip.features,
      images := ip.images, latitude := ip.latitude,
      longitude := ip.longitude, builderId := ip.builderId,
      status := ip.status.getD "available",
      featured := some (ip.featured.getD false),
      isNewLaunch := some (ip.isNewLaunch.getD false),
      isExclusive := some (ip.isExclusive.getD false),
      isReadyToMove := some (ip.isReadyToMove.getD false),
      agentId := ip.agentId }
  (p, { props := s.props ++ [p], nextId := s.nextId + 1 })

/-- The spec §3 invariant on stored properties: non-empty images, non-negative
price. -/
def propertyInvariant (p : Property) : Prop :=
  p.images ≠ [] ∧ 0 ≤ p.price

instance (p : Property) : Decidable (propertyInvariant p) := by
  unfold propertyInvariant
  infer_instance

/-- An insert with an empty images list (and non-negative price). -/
def badInsert : InsertProperty :=
  { title := "t", description := "d", address := "a", city := "c",
    location := "l", type := "apartment", category := "buy", price := 100,
    images := [] }

/-- C6 counterexample: from a state satisfying the invariant, `createProperty`
accepts an insert with an empty images list and stores a property violating
the invariant — the code performs no validation, so the invariant is not
preserved by every create. -/
theorem createProperty_invariant_cex :
    (∀ p ∈ ({ props := [], nextId := 1 } : PropState).props,
      propertyInvariant p) ∧
    ¬ propertyInvariant
        (createProperty { props := [], nextId := 1 } badInsert).1 := by
  decide

/-- C6 (amended): `createProperty` copies images and price from its input
unchanged, so it preserves the stored-property invariant exactly when the
inserted data itself has non-empty images and a non-negative price; the code
itself never validates this. -/
theorem createProperty_preserves_invariant (s : PropState)
    (ip : InsertProperty) (hs : ∀ p ∈ s.props, propertyInvariant p)
    (himg : ip.images ≠ []) (hprice : 0 ≤ ip.price) :
    propertyInvariant (createProperty s ip).1 ∧
    ∀ p ∈ (createProperty s ip).2.props, propertyInvariant p := by
  constructor
  · exact ⟨himg, hprice⟩
  · intro p hp
    rcases List.mem_append.mp hp with hmem | hmem
    · exact hs p hmem
    · rcases List.mem_singleton.mp hmem with rfl
      exact ⟨himg, hprice⟩

/-- A well-formed insert for the C6 witness. -/
def goodInsert : InsertProperty := { badInsert with images := ["img1"] }

/-- Witness for C6 at a concrete state and insert. -/
theorem createProperty_preserves_invariant_witness :
    propertyInvariant
      (createProperty { props := [exProp], nextId := 2 } goodInsert).1 ∧
    ∀ p ∈ (createProperty { props := [exProp], nextId := 2 }
        goodInsert).2.props, propertyInvariant p :=
  createProperty_preserves_invariant { props := [exProp], nextId := 2 }
    goodInsert (by decide) (by decide) (by decide)

/-! ## PATCH /api/users/:id (`server/routes.ts` lines 263-312,
`server/storage.ts` updateUser lines 72-92) -/

/-- Validated partial body of `PATCH /api/users/:id` (`updateSchema`): only
name, email and phone, each optional.  With zod, an absent optional key stays
absent, so `none` means "do not touch this column". -/
structure UpdateUserBody where
  name : Option String := none
  email : Option String := none
  phone : Option String := none
deriving DecidableEq

/-- The `updateSchema` value checks: `name` at least 2 characters, `email` in
email format (the format test is abstracted to containing an at sign),
`phone` unconstrained. -/
def updateBodyValid (b : UpdateUserBody) : Bool :=
  (match b.name with
   | some n => decide (2 ≤ n.length)
   | none => true) &&
  (match b.email with
   | some e => e.contains '@'
   | none => true)

/-- Drizzle `.set(updates)`: overwrite exactly the columns whose key is
present. -/
def applyUserUpdates (u : User) (b : UpdateUserBody) : User :=
  { u with
    name := match b.name with | some v => some v | none => u.name,
    email := match b.email with | some v => some v | none => u.email,
    phone := match b.phone with | some v => some v | none => u.phone }

/-- `DatabaseStorage.updateUser` (`server/storage.ts` lines 72-92): check the
user exists (else a not-found sentinel), update the row with the provided
fields, return the updated row. -/
def updateUser (s : UserState) (id : Nat) (updates : UpdateUserBody) :
    Option User × UserState :=
  match getUser s id with
  | none => (none, s)
  | some u0 =>
    (some (applyUserUpdates u0 updates),
     { s with
        users := s.users.map fun u =>
          if u.id == id then applyUserUpdates u updates else u })

/-- Response of `PATCH /api/users/:id` (behind the authentication guard). -/
inductive PatchResponse where
  | forbidden (message : String)
  | badRequest (message : String)
  | notFound (message : String)
  | serverError (message : String)
  | ok (message : String) (user : PublicUser)
deriving DecidableEq

/-- The `PATCH /api/users/:id` handler for an authenticated session: 403 when
the session user's id differs from the path id (checked before anything else,
with no role-based override), 400 on invalid body, 404 when the user is
absent, else update and answer 200 with the updated user sans password. -/
def patchUserRoute (s : UserState) (sessionUser : User) (pathId : Nat)
    (body : UpdateUserBody) : PatchResponse × UserState :=
  if sessionUser.id != pathId then
    (.forbidden "You can only update your own profile", s)
  else if !(updateBodyValid body) then
    (.badRequest "Invalid profile data", s)
  else
    match getUser s pathId with
    | none => (.notFound "User not found", s)
    | some _ =>
      match updateUser s pathId body with
      | (none, s2) => (.serverError "Failed to update user", s2)
      | (some u2, s2) =>
        (.ok "Profile updated successfully" (stripPassword u2), s2)

/-- C7: whenever the authenticated session user's id differs from the
path-specified id, the PATCH answers 403 and leaves the users table
unchanged; the check never consults `role`, so admins are refused like anyone
else. -/
theorem patchUserRoute_forbidden (s : UserState) (sessionUser : User)
    (pathId : Nat) (body : UpdateUserBody) (h : sessionUser.id ≠ pathId) :
    patchUserRoute s sessionUser pathId body =
      (.forbidden "You can only update your own profile", s) := by
  simp [patchUserRoute, h]

/-- An admin-roled session user whose id is 2. -/
def adminUser : User :=
  { id := 2, username := "admin", password := bcryptHash "admin123",
    email := some "admin@realestate.com", name := some "Administrator",
    phone := none, role := "admin", profileImage := none, createdAt := 50 }

/-- Witness for C7: an admin session attempting to PATCH user 1 is refused at
a concrete state. -/
theorem patchUserRoute_forbidden_witness :
    patchUserRoute exAuthState adminUser 1 { name := some "Eve" } =
      (.forbidden "You can only update your own profile", exAuthState) :=
  patchUserRoute_forbidden exAuthState adminUser 1 { name := some "Eve" }
    (by decide)

/-- The fields of a user record that a profile update must not change. -/
def sameFrame (u2 u : User) : Prop :=
  u2.id = u.id ∧ u2.username = u.username ∧ u2.password = u.password ∧
  u2.role = u.role ∧ u2.profileImage = u.profileImage ∧
  u2.createdAt = u.createdAt

instance (u2 u : User) : Decidable (sameFrame u2 u) := by
  unfold sameFrame
  infer_instance

/-- C9: frame property of a successful PATCH — the new users table is the old
one with only the addressed row passed through `applyUserUpdates`, and
`applyUserUpdates` can only change name, email and phone: id, username,
password, role, profileImage and createdAt are untouched. -/
theorem patchUserRoute_frame (s : UserState) (sessionUser : User)
    (pathId : Nat) (body : UpdateUserBody) (m : String) (pu : PublicUser)
    (s2 : UserState)
    (h : patchUserRoute s sessionUser pathId body = (.ok m pu, s2)) :
    s2.users = s.users.map
      (fun u => if u.id == pathId then applyUserUpdates u body else u) ∧
    ∀ u : User, sameFrame (applyUserUpdates u body) u := by
  constructor
  · unfold patchUserRoute at h
    split at h
    · simp at h
    · split at h
      · simp at h
      · unfold updateUser at h
        cases hg : getUser s pathId with
        | none => rw [hg] at h; simp at h
        | some u0 =>
          rw [hg] at h
          simp only [Prod.mk.injEq, PatchResponse.ok.injEq] at h
          rw [← h.2]
  · intro u
    unfold sameFrame applyUserUpdates
    cases body.name <;> cases body.email <;> cases body.phone <;>
      exact ⟨rfl, rfl, rfl, rfl, rfl, rfl⟩

/-- The users table containing alice (id 2 in `exAuthState`). -/
def alicePatchBody : UpdateUserBody := { name := some "Alice B" }

/-- Witness for C9: a successful self-PATCH by alice at a concrete state,
with the frame conclusion instantiated. -/
theorem patchUserRoute_frame_witness :
    patchUserRoute exAuthState aliceUser aliceUser.id alicePatchBody =
      (.ok "Profile updated successfully"
        (stripPassword (applyUserUpdates aliceUser alicePatchBody)),
       (patchUserRoute exAuthState aliceUser aliceUser.id
          alicePatchBody).2) ∧
    (patchUserRoute exAuthState aliceUser aliceUser.id alicePatchBody).2.users =
      exAuthState.users.map
        (fun u => if u.id == aliceUser.id then
            applyUserUpdates u alicePatchBody else u) ∧
    sameFrame (applyUserUpdates aliceUser alicePatchBody) aliceUser := by
  have h := patchUserRoute_frame exAuthState aliceUser aliceUser.id
    alicePatchBody "Profile updated successfully"
    (stripPassword (applyUserUpdates aliceUser alicePatchBody))
    (patchUserRoute exAuthState aliceUser aliceUser.id alicePatchBody).2
    (by decide)
  exact ⟨by decide, h.1, h.2 aliceUser⟩

/-! ## getEnquiries / getSavedProperties ordering (`server/storage.ts` lines
221-226 and 238-249) -/

/-- Row of the `enquiries` table. -/
structure Enquiry where
  id : Nat
  name : String
  email : String
  phone : String
  message : String
  propertyId : Option Int
  agentId : Option Int
  interest : Option String
  createdAt : Nat
deriving DecidableEq

/-- `ORDER BY enquiries.created_at DESC` as a relation: `a` comes no later
than `b` when `a`'s timestamp is at least `b`'s. -/
def enquiryNewerFirst (a b : Enquiry) : Prop :=
  b.createdAt ≤ a.createdAt

instance : DecidableRel enquiryNewerFirst :=
  fun a b => Nat.decLe b.createdAt a.createdAt

instance : IsTotal Enquiry enquiryNewerFirst :=
  ⟨fun a b => Nat.le_total b.createdAt a.createdAt⟩

instance : IsTrans Enquiry enquiryNewerFirst :=
  ⟨fun _ _ _ hab hbc => le_trans hbc hab⟩

/-- `DatabaseStorage.getEnquiries`: select all enquiries ordered newest-first
by creation timestamp (the SQL sort is modelled by insertion sort, which
yields one list that is sorted and a permutation of the table). -/
def getEnquiries (db : List Enquiry) : List Enquiry :=
  List.insertionSort enquiryNewerFirst db

/-- `ORDER BY saved_properties.created_at DESC` on the joined rows. -/
def savedNewerFirst (a b : SavedProperty × Property) : Prop :=
  b.1.createdAt ≤ a.1.createdAt

instance : DecidableRel savedNewerFirst :=
  fun a b => Nat.decLe b.1.createdAt a.1.createdAt

instance : IsTotal (SavedProperty × Property) savedNewerFirst :=
  ⟨fun a b => Nat.le_total b.1.createdAt a.1.createdAt⟩

instance : IsTrans (SavedProperty × Property) savedNewerFirst :=
  ⟨fun _ _ _ hab hbc => le_trans hbc hab⟩

/-- The join of `getSavedProperties`: saved rows of the user inner-joined with
the properties whose id matches the saved propertyId. -/
def savedJoinRows (props : List Property) (saved : List SavedProperty)
    (userId : Int) : List (SavedProperty × Property) :=
  (saved.filter fun sp => sp.userId == userId).flatMap fun sp =>
    (props.filter fun p => (p.id : Int) == sp.propertyId).map fun p => (sp, p)

/-- `DatabaseStorage.getSavedProperties` (`server/storage.ts` lines 238-249):
join, order the joined rows newest-first by the saved row's creation
timestamp, and project each row to its property. -/
def getSavedProperties (props : List Property) (saved : List SavedProperty)
    (userId : Int) : List Property :=
  (List.insertionSort savedNewerFirst (savedJoinRows props saved userId)).map
    fun r => r.2

/-- C8: `getEnquiries` is a permutation of the enquiries table sorted
newest-first by creation timestamp, and `getSavedProperties` projects the
user's joined saved rows sorted newest-first by the saved-property creation
timestamp. -/
theorem enquiries_and_saved_newest_first (enqs : List Enquiry)
    (props : List Property) (saved : List SavedProperty) (userId : Int) :
    List.Sorted enquiryNewerFirst (getEnquiries enqs) ∧
    List.Perm (getEnquiries enqs) enqs ∧
    List.Sorted savedNewerFirst
      (List.insertionSort savedNewerFirst (savedJoinRows props saved userId)) ∧
    List.Perm
      (List.insertionSort savedNewerFirst (savedJoinRows props saved userId))
      (savedJoinRows props saved userId) ∧
    getSavedProperties props saved userId =
      (List.insertionSort savedNewerFirst
        (savedJoinRows props saved userId)).map (fun r => r.2) :=
  ⟨List.sorted_insertionSort enquiryNewerFirst enqs,
   List.perm_insertionSort enquiryNewerFirst enqs,
   List.sorted_insertionSort savedNewerFirst _,
   List.perm_insertionSort savedNewerFirst _,
   rfl⟩

/-! ## DELETE /api/saved-properties/:propertyId (`server/routes.ts` lines
361-377, `server/storage.ts` unsaveProperty lines 275-284) -/

/-- `DatabaseStorage.unsaveProperty`: delete every row matching the
(userId, propertyId) pair — a no-op when none match. -/
def unsaveProperty (s : SavedState) (userId propertyId : Int) : SavedState :=
  { s with rows := s.rows.filter fun r => !(savedMatches userId propertyId r) }

/-- Response of `DELETE /api/saved-properties/:propertyId` (behind the
authentication guard). -/
inductive DeleteSavedResponse where
  | badRequest (message : String)
  | ok (message : String)
deriving DecidableEq

/-- The `DELETE /api/saved-properties/:propertyId` handler for an
authenticated session: 400 when `parseInt` of the path parameter is NaN, else
delete and always answer 200 with a success message — there is no existence
check and no 404. -/
def deleteSavedPropertyRoute (s : SavedState) (sessionUserId : Int)
    (propertyIdParam : String) : DeleteSavedResponse × SavedState :=
  match parseIntJS propertyIdParam with
  | none => (.badRequest "Invalid property ID", s)
  | some propertyId =>
    (.ok "Property removed from saved list successfully",
     unsaveProperty s sessionUserId propertyId)

/-- C10: for every numeric path parameter the DELETE answers 200 with the
success message, even when no (userId, propertyId) row exists — in which case
`unsaveProperty` leaves the state unchanged; no input on this path yields a
404. -/
theorem deleteSavedProperty_total (s : SavedState) (uid : Int)
    (param : String) (n : Int) (hp : parseIntJS param = some n) :
    deleteSavedPropertyRoute s uid param =
      (.ok "Property removed from saved list successfully",
       unsaveProperty s uid n) ∧
    ((∀ r ∈ s.rows, savedMatches uid n r = false) →
      unsaveProperty s uid n = s) := by
  constructor
  · simp [deleteSavedPropertyRoute, hp]
  · intro h
    unfold unsaveProperty
    have : (s.rows.filter fun r => !(savedMatches uid n r)) = s.rows :=
      List.filter_eq_self.mpr fun r hr => by simp [h r hr]
    rw [this]

/-- A saved-properties table with one row for user 1, property 2. -/
def exSavedRows : SavedState :=
  { rows := [{ id := 1, userId := 1, propertyId := 2, createdAt := 10 }],
    nextId := 2, now := 20 }

/-- Witness for C10: user 3 unsaves property 5 (no such row): 200 with the
success message and an unchanged table. -/
theorem deleteSavedProperty_total_witness :
    deleteSavedPropertyRoute exSavedRows 3 "5" =
      (.ok "Property removed from saved list successfully",
       unsaveProperty exSavedRows 3 5) ∧
    unsaveProperty exSavedRows 3 5 = exSavedRows := by
  have h := deleteSavedProperty_total exSavedRows 3 "5" 5 (by decide)
  exact ⟨h.1, h.2 (by decide)⟩

end HomeQuest
